import Mathlib

/-!
Verification of the StreamBuddyLive `YouTubeStreamService` (YouTube live
streaming session manager) against its natural-language specification.

The repository contains two revisions of the service:
* `server/services/youtube-stream.ts` — a single-session service with one
  `ffmpegProcess` handle, one `streamStatus` record and observer callbacks
  (embedded below in namespace `Single`);
* an unnamed revision — a multi-session service keyed by `streamId`, with
  `processes` / `statuses` / `startTimes` maps (embedded in namespace `Multi`).

Pure helpers (quality resolvers, the ffmpeg stderr parsing, duration
formatting) are identical in both revisions and are embedded once at top
level.  Stateful behaviour is embedded as atomic event steps on explicit
state records: start initiation, the 2-second confirmation callback, stderr
data events, process close events, and stop calls.  JavaScript numbers that
matter here are either integers (modelled as `Nat`) or the parsed ffmpeg
speed multiplier (modelled as `ℚ`); strings are Lean `String`s.
-/

/-- JavaScript `String.prototype.includes` needs a substring test on char
lists: `leadsWith p l` is true when `p` is an initial segment of `l`. -/
def leadsWith : List Char → List Char → Bool
  | [], _ => true
  | _ :: _, [] => false
  | p :: ps, c :: cs => p == c && leadsWith ps cs

/-- `occursIn pat l` is true when `pat` occurs contiguously inside `l`. -/
def occursIn (pat : List Char) : List Char → Bool
  | [] => pat.isEmpty
  | c :: cs => leadsWith pat (c :: cs) || occursIn pat cs

/-- JavaScript `s.includes(pat)`. -/
def includes (s pat : String) : Bool :=
  occursIn pat.toList s.toList

/-- Decimal digit characters, as tested by the `[0-9]` regex class. -/
def isDigitCh (c : Char) : Bool := '0' ≤ c && c ≤ '9'

/-- The `[0-9.]` regex class used by the speed pattern. -/
def isDotDigit (c : Char) : Bool := isDigitCh c || c == '.'

/-- ASCII whitespace as matched by the regex class in `speed=\s*`. -/
def isSpaceCh (c : Char) : Bool :=
  c == ' ' || c == '\t' || c == '\n' || c == '\r' || c == '\x0b' || c == '\x0c'

/-- Splits a char list into its longest prefix satisfying `p` and the rest
(the behaviour of a greedy regex character-class repetition). -/
def spanB (p : Char → Bool) : List Char → List Char × List Char
  | [] => ([], [])
  | c :: cs =>
    if p c then
      let r := spanB p cs
      (c :: r.1, r.2)
    else ([], c :: cs)

/-- Numeric value of a list of decimal digit characters (most significant
first), as accumulated left to right. -/
def digitsVal (l : List Char) : Nat :=
  l.foldl (fun a c => a * 10 + (c.toNat - 48)) 0

/-- The decimal digit character for `n < 10`. -/
def digitCh : Nat → Char
  | 0 => '0' | 1 => '1' | 2 => '2' | 3 => '3' | 4 => '4'
  | 5 => '5' | 6 => '6' | 7 => '7' | 8 => '8' | 9 => '9'
  | _ => '?'

/-- Digit-by-digit decimal printing, structurally recursive on a fuel
argument (any fuel above the number itself is enough). -/
def natToDecimalAux : Nat → Nat → List Char
  | 0, _ => []
  | fuel + 1, n =>
    if n < 10 then [digitCh n]
    else natToDecimalAux fuel (n / 10) ++ [digitCh (n % 10)]

/-- Decimal representation of a natural number, as produced by JavaScript
`Number.prototype.toString` for nonnegative integers. -/
def natToDecimal (n : Nat) : List Char := natToDecimalAux (n + 1) n

/-- Decimal representation of an integer. -/
def intToDecimal (n : ℤ) : List Char :=
  if n < 0 then '-' :: natToDecimal (-n).toNat else natToDecimal n.toNat

/-- JavaScript `n.toString()` for a nonnegative number. -/
def jsToString (n : Nat) : String := String.mk (natToDecimal n)

/-- JavaScript `String.prototype.padStart(n, c)`. -/
def padStart (s : String) (n : Nat) (c : Char) : String :=
  String.mk (List.replicate (n - s.length) c) ++ s

/-- JavaScript `x.toFixed(1)` on a rational: one fractional digit, ties
rounded to the larger candidate (ECMA-262 `Number.prototype.toFixed`). -/
def toFixed1 (q : ℚ) : String :=
  let n : ℤ := ⌊q * 10 + 1 / 2⌋
  String.mk (intToDecimal (n / 10)) ++ "." ++ String.mk (intToDecimal (n % 10))

/-- `YouTubeStreamService.getMaxRate` — bitrate ceiling per quality tier. -/
def getMaxRate (quality : String) : String :=
  if quality = "1080p" then "6000k"
  else if quality = "720p" then "3000k"
  else if quality = "480p" then "1500k"
  else "3000k"

/-- `YouTubeStreamService.getBufSize` — buffer size per quality tier. -/
def getBufSize (quality : String) : String :=
  if quality = "1080p" then "12000k"
  else if quality = "720p" then "6000k"
  else if quality = "480p" then "3000k"
  else "6000k"

/-- `YouTubeStreamService.getResolution` — landscape (desktop) resolution. -/
def getResolution (quality : String) : String :=
  if quality = "1080p" then "1920:1080"
  else if quality = "720p" then "1280:720"
  else if quality = "480p" then "854:480"
  else "1280:720"

/-- `YouTubeStreamService.getMobileResolution` — portrait (mobile)
resolution. -/
def getMobileResolution (quality : String) : String :=
  if quality = "1080p" then "1080:1920"
  else if quality = "720p" then "720:1280"
  else if quality = "480p" then "480:854"
  else "720:1280"

/-- `YouTubeStreamService.getVideoFilter` — the `-vf` scaling/padding spec. -/
def getVideoFilter (quality streamMode : String) : String :=
  if streamMode = "mobile" then
    let mobileRes := getMobileResolution quality
    "scale=" ++ mobileRes ++ ":force_original_aspect_ratio=decrease,pad=" ++
      mobileRes ++ ":(ow-iw)/2:(oh-ih)/2"
  else
    let res := getResolution quality
    "scale=" ++ res ++ ":force_original_aspect_ratio=decrease,pad=" ++
      res ++ ":(ow-iw)/2:(oh-ih)/2"

/-- The bundle of encode parameters drawn from the resolver for a given
quality tier and stream mode: max bitrate, buffer size, video filter. -/
def resolveProfile (quality streamMode : String) : String × String × String :=
  (getMaxRate quality, getBufSize quality, getVideoFilter quality streamMode)

/-- Decodes a `"W:H"` resolution string produced by the resolvers. -/
def parseRes (s : String) : Option (Nat × Nat) :=
  let r := spanB isDigitCh s.toList
  match r.2 with
  | ':' :: rest =>
    let r2 := spanB isDigitCh rest
    if r.1.isEmpty || r2.1.isEmpty || !r2.2.isEmpty then none
    else some (digitsVal r.1, digitsVal r2.1)
  | _ => none

/-- `YouTubeStreamService.formatDuration` — `HH:MM:SS` from milliseconds. -/
def formatDuration (ms : Nat) : String :=
  let seconds := ms / 1000
  let hours := seconds / 3600
  let minutes := seconds % 3600 / 60
  let secs := seconds % 60
  padStart (jsToString hours) 2 '0' ++ ":" ++ padStart (jsToString minutes) 2 '0'
    ++ ":" ++ padStart (jsToString secs) 2 '0'

/-- Total seconds represented by a formatted duration: `Math.floor(ms / 1000)`. -/
def durationSeconds (ms : Nat) : Nat := ms / 1000

/-- The fatal-error test performed on each ffmpeg stderr chunk (identical in
both revisions of `startStream`). -/
def isFatalOutput (output : String) : Bool :=
  includes output "Connection refused" ||
  includes output "404 Not Found" ||
  includes output "403 Forbidden" ||
  includes output "HTTP error" ||
  includes output "No such file or directory"

/-- First match of the regex `speed=\s*([0-9.]+)x` in a chunk: scan left to
right for the literal `speed=`, skip whitespace greedily, take the maximal
nonempty `[0-9.]` run, and require the following character to be `x`;
returns the captured run.  (Backtracking inside the run cannot help, since
no `[0-9.]` character is an `x`.) -/
def speedAt : List Char → Option (List Char)
  | 's' :: 'p' :: 'e' :: 'e' :: 'd' :: '=' :: rest =>
    let r1 := spanB isSpaceCh rest
    let r2 := spanB isDotDigit r1.2
    match r2.2 with
    | 'x' :: _ => if r2.1.isEmpty then none else some r2.1
    | _ => none
  | _ => none

/-- Scans every position of the chunk for the speed pattern. -/
def findSpeedTok : List Char → Option (List Char)
  | [] => none
  | c :: cs =>
    match speedAt (c :: cs) with
    | some t => some t
    | none => findSpeedTok cs

/-- JavaScript `parseFloat` restricted to the `[0-9.]` alphabet of a
captured speed token: leading digits form the integer part, a following
`.` and digits the fraction, and anything after a second `.` is ignored;
a bare `.` (no digits either side) is `NaN`, returned as `none`. -/
def jsParseFloat (tok : List Char) : Option ℚ :=
  let r := spanB isDigitCh tok
  if r.1.isEmpty then
    match r.2 with
    | '.' :: r2 =>
      let f := spanB isDigitCh r2
      if f.1.isEmpty then none
      else some ((digitsVal f.1 : ℚ) / 10 ^ f.1.length)
    | _ => none
  else
    match r.2 with
    | '.' :: r2 =>
      let f := spanB isDigitCh r2
      some ((digitsVal r.1 : ℚ) + (digitsVal f.1 : ℚ) / 10 ^ f.1.length)
    | _ => some (digitsVal r.1)

/-- The `uploadSpeed` string computed by `parseFFmpegOutput` when the speed
regex matches: `(speed * 2).toFixed(1)` followed by `" Mbps"`; a token that
`parseFloat` cannot read is `NaN`, and `(NaN * 2).toFixed(1)` is `"NaN"`. -/
def speedUpdate (output : String) : Option String :=
  match findSpeedTok output.toList with
  | none => none
  | some tok =>
    match jsParseFloat tok with
    | some q => some (toFixed1 (q * 2) ++ " Mbps")
    | none => some "NaN Mbps"

/-- Rounding to one decimal place with ties upward — the value denoted by a
`toFixed(1)` rendering. -/
def roundTo1 (x : ℚ) : ℚ := (⌊x * 10 + 1 / 2⌋ : ℚ) / 10

/-- Connection status enum: `'disconnected' | 'connecting' | 'connected'`. -/
inductive ConnectionStatus
  | disconnected
  | connecting
  | connected
  deriving DecidableEq, Repr

/-- `StreamConfig` as consumed by `startStream` (identical in both
revisions); optional fields are `Option`s and the `loop` truthiness test is
a `Bool`. -/
structure StreamConfig where
  streamKey : String
  quality : String
  inputFile : String
  title : Option String
  loop : Bool
  streamMode : Option String
  deriving DecidableEq, Repr

/-- The YouTube RTMP ingest URL built by `startStream`. -/
def rtmpUrl (streamKey : String) : String :=
  "rtmp://a.rtmp.youtube.com/live2/" ++ streamKey

/-- The ffmpeg argument list built by `startStream` (identical in both
revisions): `-re`, the optional `-stream_loop -1` pair, then the input,
codec, rate, filter and container arguments, ending with the RTMP URL. -/
def ffmpegArgs (config : StreamConfig) : List String :=
  ["-re"] ++ (if config.loop then ["-stream_loop", "-1"] else []) ++
  ["-i", config.inputFile,
   "-c:v", "libx264",
   "-preset", "fast",
   "-maxrate", getMaxRate config.quality,
   "-bufsize", getBufSize config.quality,
   "-vf", getVideoFilter config.quality (config.streamMode.getD "desktop"),
   "-c:a", "aac",
   "-b:a", "128k",
   "-ar", "44100",
   "-f", "flv",
   "-flvflags", "no_duration_filesize",
   rtmpUrl config.streamKey]

namespace Single

/-- `StreamStatus` of the single-session revision. -/
structure StreamStatus where
  isStreaming : Bool
  connectionStatus : ConnectionStatus
  uploadSpeed : String
  droppedFrames : Nat
  viewerCount : Nat
  duration : String
  deriving DecidableEq, Repr

/-- The initial `streamStatus` record of the service. -/
def initialStatus : StreamStatus :=
  { isStreaming := false
    connectionStatus := .disconnected
    uploadSpeed := "0 Mbps"
    droppedFrames := 0
    viewerCount := 0
    duration := "00:00:00" }

/-- `parseFFmpegOutput` on the status record: the speed-regex branch
rewrites `uploadSpeed`, then a chunk containing `drop` or `error`
increments `droppedFrames`. -/
def parseFFmpegOutput (output : String) (st : StreamStatus) : StreamStatus :=
  let st1 :=
    match speedUpdate output with
    | some u => { st with uploadSpeed := u }
    | none => st
  if includes output "drop" || includes output "error" then
    { st1 with droppedFrames := st1.droppedFrames + 1 }
  else st1

/-- A spawned child process: its pid and its `killed` flag (set when
`kill` has been called on it). -/
structure Proc where
  pid : Nat
  killed : Bool
  deriving DecidableEq, Repr

/-- State of the single-session service.  Besides the fields of the
TypeScript class (`ffmpegProcess`, `streamStatus`, `startTime`), the model
tracks the pids of spawned ffmpeg processes that are still running
(`livePids`, to observe orphaned processes), a pid counter, and the
sequence of snapshots delivered to status observers (`notifications`,
recording each `notifyStatusChange` call). -/
structure ServiceState where
  ffmpegProcess : Option Proc
  streamStatus : StreamStatus
  startTime : Option Nat
  nextPid : Nat
  livePids : List Nat
  notifications : List StreamStatus
  deriving DecidableEq, Repr

/-- The freshly constructed service. -/
def initialState : ServiceState :=
  { ffmpegProcess := none
    streamStatus := initialStatus
    startTime := none
    nextPid := 0
    livePids := []
    notifications := [] }

/-- `notifyStatusChange`: every observer receives `getStatus()`, a spread
copy of the current status. -/
def notify (s : ServiceState) : ServiceState :=
  { s with notifications := s.notifications ++ [s.streamStatus] }

/-- `getStatus`: returns `{ ...this.streamStatus }`. -/
def getStatus (s : ServiceState) : StreamStatus := s.streamStatus

/-- The fields reset by `stopStream` (it does not touch `viewerCount`). -/
def resetStatus (st : StreamStatus) : StreamStatus :=
  { st with
    isStreaming := false
    connectionStatus := .disconnected
    uploadSpeed := "0 Mbps"
    droppedFrames := 0
    duration := "00:00:00" }

/-- `stopStream`: if a process handle is present, kill it (SIGTERM — the
process leaves the running set) and null the handle; then reset the status
fields, clear `startTime` and notify observers. -/
def stopStream (s : ServiceState) : ServiceState :=
  let s1 :=
    match s.ffmpegProcess with
    | some p => { s with ffmpegProcess := none, livePids := s.livePids.erase p.pid }
    | none => s
  notify { s1 with streamStatus := resetStatus s1.streamStatus, startTime := none }

/-- Errors surfaced by `startStream`. -/
inductive StartError
  | alreadyRunning
  | accessError
  | startFailed
  deriving DecidableEq, Repr

/-- The synchronous initiation phase of `startStream`, as one atomic step:
the `isStreaming` guard throws `Stream is already running`; a failing
`fs.access` lands in the catch block (status set to disconnected, observers
notified, error rethrown); otherwise status becomes `connecting`, observers
are notified and ffmpeg is spawned and stored in `ffmpegProcess`. -/
def startInit (fileOk : Bool) (s : ServiceState) : Option StartError × ServiceState :=
  if s.streamStatus.isStreaming then (some .alreadyRunning, s)
  else if !fileOk then
    (some .accessError,
      notify { s with streamStatus := { s.streamStatus with connectionStatus := .disconnected } })
  else
    let s1 := notify { s with streamStatus := { s.streamStatus with connectionStatus := .connecting } }
    (none,
      { s1 with
        ffmpegProcess := some ⟨s1.nextPid, false⟩
        livePids := s1.livePids ++ [s1.nextPid]
        nextPid := s1.nextPid + 1 })

/-- The 2-second confirmation callback of `startStream` at time `t`: if the
handle is present and not killed, the stream is marked live (`isStreaming`,
`connected`, `startTime`) and observers are notified; otherwise the promise
rejects and the catch block sets `disconnected` and notifies. -/
def confirmTimeout (t : Nat) (s : ServiceState) : Option StartError × ServiceState :=
  match s.ffmpegProcess with
  | some p =>
    if !p.killed then
      (none,
        notify { s with
          streamStatus := { s.streamStatus with isStreaming := true, connectionStatus := .connected }
          startTime := some t })
    else
      (some .startFailed,
        notify { s with streamStatus := { s.streamStatus with connectionStatus := .disconnected } })
  | none =>
    (some .startFailed,
      notify { s with streamStatus := { s.streamStatus with connectionStatus := .disconnected } })

/-- The non-fatal part of the stderr data handler: `parseFFmpegOutput`
mutates the status and ends with `notifyStatusChange`. -/
def feedChunk (output : String) (s : ServiceState) : ServiceState :=
  notify { s with streamStatus := parseFFmpegOutput output s.streamStatus }

/-- The stderr `data` handler: parse the chunk, then, if it contains one of
the five fatal phrases, call `stopStream`. -/
def stderrData (output : String) (s : ServiceState) : ServiceState :=
  if isFatalOutput output then stopStream (feedChunk output s) else feedChunk output s

/-- The process `close` (or `error`) handler: the process has exited (its
pid leaves the running set) and `stopStream` is called. -/
def closeEvent (s : ServiceState) : ServiceState :=
  match s.ffmpegProcess with
  | some p => stopStream { s with livePids := s.livePids.erase p.pid }
  | none => stopStream s

end Single

namespace Multi

/-- `StreamStatus` of the multi-session revision (no `viewerCount`). -/
structure StreamStatus where
  isStreaming : Bool
  connectionStatus : ConnectionStatus
  uploadSpeed : String
  droppedFrames : Nat
  duration : String
  deriving DecidableEq, Repr

/-- The status object created by `startStream` before spawning. -/
def connectingStatus : StreamStatus :=
  { isStreaming := false
    connectionStatus := .connecting
    uploadSpeed := "0 Mbps"
    droppedFrames := 0
    duration := "00:00:00" }

/-- The field values written by `stopStream` into an existing status
object (it rewrites every field of this record). -/
def stoppedStatus : StreamStatus :=
  { isStreaming := false
    connectionStatus := .disconnected
    uploadSpeed := "0 Mbps"
    droppedFrames := 0
    duration := "00:00:00" }

/-- State of the multi-session service.  JavaScript objects held in the
`statuses` map are mutable and aliased, so the model gives them addresses:
`heap` is the store of status objects (an address is an index, allocation
appends), and `statuses` maps a stream id to the address of its status
object.  `processes` maps a stream id to the pid of its child process;
`livePids` are the pids still running, `killedPids` those whose `kill`
method has been called (the `killed` flag). -/
structure MState where
  heap : List StreamStatus
  statuses : Nat → Option Nat
  processes : Nat → Option Nat
  startTimes : Nat → Option Nat
  livePids : List Nat
  killedPids : List Nat
  nextPid : Nat

/-- The freshly constructed service. -/
def mInit : MState :=
  { heap := []
    statuses := fun _ => none
    processes := fun _ => none
    startTimes := fun _ => none
    livePids := []
    killedPids := []
    nextPid := 0 }

/-- Point update of an id-keyed map. -/
def mapSet (m : Nat → Option α) (k : Nat) (v : α) : Nat → Option α :=
  fun i => if i = k then some v else m i

/-- Point deletion from an id-keyed map. -/
def mapDel (m : Nat → Option α) (k : Nat) : Nat → Option α :=
  fun i => if i = k then none else m i

/-- In-place mutation of the status object at address `a` (a no-op when the
address is not allocated, which does not occur in reachable states). -/
def heapModify (heap : List StreamStatus) (a : Nat) (f : StreamStatus → StreamStatus) :
    List StreamStatus :=
  match heap.get? a with
  | some st => heap.set a (f st)
  | none => heap

/-- The status object a session id currently denotes, dereferenced. -/
def readStatus (s : MState) (id : Nat) : Option StreamStatus :=
  (s.statuses id).bind fun a => s.heap.get? a

/-- `getStatus(streamId)`: `return this.statuses.get(streamId) || null` —
the stored object itself is handed out, so the model returns its address. -/
def getStatusRef (s : MState) (id : Nat) : Option Nat := s.statuses id

/-- `startStream(config, streamId)` up to the spawn, as one atomic step:
the guard `processes.has(streamId)` throws `already running`; a failing
`fs.access` rejects with no state change; otherwise a fresh `connecting`
status object is allocated and registered, ffmpeg is spawned, and the
process and start time are recorded. -/
def startInit (fileOk : Bool) (id t : Nat) (s : MState) : Except Single.StartError MState :=
  if (s.processes id).isSome then .error .alreadyRunning
  else if !fileOk then .error .accessError
  else
    .ok { s with
      heap := s.heap ++ [connectingStatus]
      statuses := mapSet s.statuses id s.heap.length
      processes := mapSet s.processes id s.nextPid
      startTimes := mapSet s.startTimes id t
      livePids := s.livePids ++ [s.nextPid]
      nextPid := s.nextPid + 1 }

/-- `stopStream(streamId)`: kill and forget the process if one is mapped,
reset every field of the status object if one is mapped, and delete the
start time.  It never produces an error. -/
def stopStream (id : Nat) (s : MState) : MState :=
  let s1 :=
    match s.processes id with
    | some pid =>
      { s with
        processes := mapDel s.processes id
        livePids := s.livePids.erase pid
        killedPids := s.killedPids ++ [pid] }
    | none => s
  let s2 :=
    match s1.statuses id with
    | some a => { s1 with heap := heapModify s1.heap a (fun _ => stoppedStatus) }
    | none => s1
  { s2 with startTimes := mapDel s2.startTimes id }

/-- `parseFFmpegOutput(output, streamId)`: mutates the mapped status object
(speed estimate, dropped-frame counter); returns silently when the id has
no status. -/
def parseFFmpegOutput (output : String) (id : Nat) (s : MState) : MState :=
  match s.statuses id with
  | none => s
  | some a =>
    { s with
      heap := heapModify s.heap a (fun st =>
        let st1 :=
          match speedUpdate output with
          | some u => { st with uploadSpeed := u }
          | none => st
        if includes output "drop" || includes output "error" then
          { st1 with droppedFrames := st1.droppedFrames + 1 }
        else st1) }

/-- The stderr `data` handler: parse, then stop on a fatal phrase. -/
def stderrData (output : String) (id : Nat) (s : MState) : MState :=
  let s1 := parseFFmpegOutput output id s
  if isFatalOutput output then stopStream id s1 else s1

/-- The `close` handler for the process `pid` spawned for `id`: the process
has exited (leaves the running set); the handler deletes the process and
start-time entries and marks the status object disconnected — without
resetting its metrics. -/
def closeEvent (id pid : Nat) (s : MState) : MState :=
  let s1 := { s with livePids := s.livePids.erase pid }
  let s2 :=
    match s1.statuses id with
    | some a =>
      { s1 with
        heap := heapModify s1.heap a (fun st =>
          { st with isStreaming := false, connectionStatus := .disconnected }) }
    | none => s1
  { s2 with
    processes := mapDel s2.processes id
    startTimes := mapDel s2.startTimes id }

/-- The 2-second confirmation callback: the closure captured the spawned
process (`pid`) and the allocated status object (`addr`); if `kill` was
never called on that process it marks the captured object live and the
start promise resolves, otherwise the promise rejects with no state
change. -/
def confirmTimeout (pid addr : Nat) (s : MState) : Except Single.StartError MState :=
  if s.killedPids.contains pid then .error .startFailed
  else
    .ok { s with
      heap := heapModify s.heap addr (fun st =>
        { st with isStreaming := true, connectionStatus := .connected }) }

end Multi

/-- Extracts the success state of a step, with a fallback. -/
def exOkOr (d : α) : Except ε α → α
  | .ok a => a
  | .error _ => d

/-- Whether a step succeeded. -/
def exIsOk : Except ε α → Bool
  | .ok _ => true
  | .error _ => false

namespace Single

/-- Object-identity view of the single-session service, used to state what
`getStatus` hands to a caller.  The service owns one mutable status object
(`statusObj`, the JavaScript `this.streamStatus`); every call to
`getStatus` allocates a fresh object `{ ...this.streamStatus }` holding a
copy of the current field values.  `snapshots` stores those allocations
(address `k + 1` is the `k`-th snapshot; address `0` is the service's own
object). -/
structure ObjState where
  statusObj : StreamStatus
  snapshots : List StreamStatus
  deriving Repr

/-- The status-mutating operations that can run after a `getStatus` call:
an ffmpeg stderr chunk (parser, possibly followed by the fatal-phrase
stop), an explicit `stopStream`, and the 1-second duration clock tick with
a given elapsed-milliseconds value. -/
inductive ServiceOp
  | feed (output : String)
  | stopCall
  | tick (elapsed : Nat)

/-- Effect of each operation on the service's own status object; none of
them touches previously returned snapshots. -/
def applyServiceOp : ServiceOp → ObjState → ObjState
  | .feed output, s =>
    let st1 := parseFFmpegOutput output s.statusObj
    { s with statusObj := if isFatalOutput output then resetStatus st1 else st1 }
  | .stopCall, s => { s with statusObj := resetStatus s.statusObj }
  | .tick elapsed, s =>
    { s with
      statusObj :=
        if s.statusObj.isStreaming then
          { s.statusObj with duration := formatDuration elapsed }
        else s.statusObj }

/-- `getStatus()` in the object view: allocate a fresh copy of the current
status and return its address. -/
def getStatusCopy (s : ObjState) : Nat × ObjState :=
  (s.snapshots.length + 1, { s with snapshots := s.snapshots ++ [s.statusObj] })

/-- Dereference an address: `0` is the service's own object, `k + 1` the
`k`-th snapshot. -/
def readObj (s : ObjState) : Nat → Option StreamStatus
  | 0 => some s.statusObj
  | a + 1 => s.snapshots.get? a

end Single

section Lemmas

/-- `get?` at the length of the front of an append hits the appended
element. -/
theorem get?_append_length (l : List α) (x : α) : (l ++ [x]).get? l.length = some x := by
  induction l with
  | nil => rfl
  | cons a as ih => simpa using ih

/-- `get?` after `set` at the same index rewrites the stored value exactly
when the index is in range. -/
theorem get?_set_self (l : List α) (n : Nat) (v : α) :
    (l.set n v).get? n = (l.get? n).map fun _ => v := by
  induction l generalizing n with
  | nil => simp
  | cons a as ih =>
    cases n with
    | zero => simp
    | succ m => simpa using ih m

/-- A two-element contiguous occurrence yields consecutive indices. -/
theorem infix_pair_index {a b : α} {L : List α} (h : [a, b] <:+: L) :
    ∃ i, L.get? i = some a ∧ L.get? (i + 1) = some b := by
  obtain ⟨s, t, hst⟩ := h
  refine ⟨s.length, ?_, ?_⟩
  · rw [← hst, List.append_assoc, List.get?_append_right (Nat.le_refl _)]
    simp
  · rw [← hst, List.append_assoc, List.get?_append_right (Nat.le_succ_of_le (Nat.le_refl _))]
    simp [Nat.succ_sub (Nat.le_refl _)]

/-- Any two sufficient fuels print the same digits. -/
theorem natToDecimalAux_congr :
    ∀ f₁ : Nat, ∀ f₂ n : Nat, n < f₁ → n < f₂ →
      natToDecimalAux f₁ n = natToDecimalAux f₂ n := by
  intro f₁
  induction f₁ with
  | zero => intro f₂ n h₁ _; omega
  | succ f₁ ih =>
    intro f₂ n h₁ h₂
    cases f₂ with
    | zero => omega
    | succ f₂ =>
      show natToDecimalAux (f₁ + 1) n = natToDecimalAux (f₂ + 1) n
      by_cases h : n < 10
      · simp [natToDecimalAux, h]
      · have hlt : n / 10 < n := Nat.div_lt_self (by omega) (by omega)
        simp only [natToDecimalAux, h, if_false]
        rw [ih f₂ (n / 10) (by omega) (by omega)]

/-- The recurrence satisfied by the decimal printer. -/
theorem natToDecimal_eq (n : Nat) :
    natToDecimal n = if n < 10 then [digitCh n]
      else natToDecimal (n / 10) ++ [digitCh (n % 10)] := by
  show natToDecimalAux (n + 1) n = _
  by_cases h : n < 10
  · simp [natToDecimalAux, h]
  · have hlt : n / 10 < n := Nat.div_lt_self (by omega) (by omega)
    simp only [natToDecimalAux, h, if_false]
    rw [natToDecimalAux_congr n (n / 10 + 1) (n / 10) (by omega) (by omega)]
    rfl

/-- All characters produced by `natToDecimal` are decimal digits. -/
theorem natToDecimal_digits (n : Nat) : ∀ c ∈ natToDecimal n, isDigitCh c = true := by
  induction n using Nat.strong_induction_on with
  | _ n ih =>
    intro c hc
    rw [natToDecimal_eq] at hc
    by_cases h : n < 10
    · simp only [h, if_pos] at hc
      interval_cases n <;> (simp [digitCh] at hc; subst hc; decide)
    · simp only [h, if_false, List.mem_append] at hc
      rcases hc with hc | hc
      · exact ih (n / 10) (Nat.div_lt_self (by omega) (by omega)) c hc
      · have h10 : n % 10 < 10 := Nat.mod_lt _ (by omega)
        interval_cases hm : n % 10 <;> simp_all [digitCh, isDigitCh]

/-- `natToDecimal` never returns the empty list. -/
theorem natToDecimal_ne_nil (n : Nat) : natToDecimal n ≠ [] := by
  rw [natToDecimal_eq]
  by_cases h : n < 10 <;> simp [h]

/-- Digit value of a single digit character. -/
theorem digitsVal_digitCh (d : Nat) (hd : d < 10) : digitsVal [digitCh d] = d := by
  interval_cases d <;> rfl

/-- `digitsVal` over an appended low-order digit. -/
theorem digitsVal_append (l : List Char) (c : Char) :
    digitsVal (l ++ [c]) = 10 * digitsVal l + (c.toNat - 48) := by
  simp [digitsVal, List.foldl_append, Nat.mul_comm]

/-- Round trip: the decimal printer and `digitsVal` are inverse. -/
theorem digitsVal_natToDecimal (n : Nat) : digitsVal (natToDecimal n) = n := by
  induction n using Nat.strong_induction_on with
  | _ n ih =>
    rw [natToDecimal_eq]
    by_cases h : n < 10
    · simp only [h, if_pos]
      exact digitsVal_digitCh n h
    · simp only [h, if_false]
      rw [digitsVal_append, ih (n / 10) (Nat.div_lt_self (by omega) (by omega))]
      have h10 : n % 10 < 10 := Nat.mod_lt _ (by omega)
      have : (digitCh (n % 10)).toNat - 48 = n % 10 := by
        interval_cases hm : n % 10 <;> simp_all [digitCh]
      omega

/-- `spanB` takes a fully satisfying block wholesale. -/
theorem spanB_append (p : Char → Bool) (l r : List Char) (hl : ∀ c ∈ l, p c = true) :
    spanB p (l ++ r) = (l ++ (spanB p r).1, (spanB p r).2) := by
  induction l with
  | nil => simp [spanB]
  | cons c cs ih =>
    have hc : p c = true := hl c (by simp)
    have ih' := ih fun d hd => hl d (by simp [hd])
    simp [spanB, hc, ih']

/-- `spanB` stops immediately at a failing head. -/
theorem spanB_stop (p : Char → Bool) (c : Char) (r : List Char) (hc : p c = false) :
    spanB p (c :: r) = ([], c :: r) := by
  simp [spanB, hc]

end Lemmas


section RateLemmas

/-- The value denoted by a rendered rate string: `parseFloat` applied to
its leading `[0-9.]` run (so `"2.5 Mbps"` denotes `5/2`). -/
def rateVal (s : String) : Option ℚ :=
  jsParseFloat (spanB isDotDigit s.toList).1

/-- The rational denoted by the `uploadSpeed` field of a status. -/
def uploadSpeedVal (st : Single.StreamStatus) : Option ℚ :=
  rateVal st.uploadSpeed

/-- Values read by `jsParseFloat` are nonnegative. -/
theorem jsParseFloat_nonneg {tok : List Char} {q : ℚ} (h : jsParseFloat tok = some q) :
    0 ≤ q := by
  simp only [jsParseFloat] at h
  split at h
  · split at h
    · split at h
      · exact absurd h (by simp)
      · simp only [Option.some.injEq] at h
        rw [← h]; positivity
    · exact absurd h (by simp)
  · split at h
    · simp only [Option.some.injEq] at h
      rw [← h]; positivity
    · simp only [Option.some.injEq] at h
      rw [← h]; positivity

/-- `intToDecimal` on a natural-number cast is `natToDecimal`. -/
theorem intToDecimal_natCast (m : ℕ) : intToDecimal (m : ℤ) = natToDecimal m := by
  rw [intToDecimal, if_neg (by omega)]
  norm_num

/-- `parseFloat` reads back a printed `q.i` pair. -/
theorem jsParseFloat_print (N : Nat) :
    jsParseFloat (natToDecimal (N / 10) ++ '.' :: natToDecimal (N % 10)) =
      some ((N : ℚ) / 10) := by
  have hd1 := natToDecimal_digits (N / 10)
  have hs1 : spanB isDigitCh (natToDecimal (N / 10) ++ '.' :: natToDecimal (N % 10)) =
      (natToDecimal (N / 10), '.' :: natToDecimal (N % 10)) := by
    rw [spanB_append _ _ _ hd1, spanB_stop _ _ _ (by decide)]
    simp
  have hm : N % 10 < 10 := Nat.mod_lt _ (by omega)
  have hsingle : natToDecimal (N % 10) = [digitCh (N % 10)] := by
    rw [natToDecimal_eq]; simp [hm]
  have hs2 : spanB isDigitCh (natToDecimal (N % 10)) = (natToDecimal (N % 10), []) := by
    have := spanB_append isDigitCh (natToDecimal (N % 10)) [] (natToDecimal_digits _)
    simpa [spanB] using this
  have hne : (natToDecimal (N / 10)).isEmpty = false := by
    cases hnn : natToDecimal (N / 10) with
    | nil => exact absurd hnn (natToDecimal_ne_nil _)
    | cons a l => rfl
  unfold jsParseFloat
  rw [hs1]
  simp only [hne, Bool.false_eq_true, if_false, hs2]
  rw [hsingle]
  simp only [digitsVal_natToDecimal, List.length_cons, List.length_nil]
  rw [digitsVal_digitCh _ hm]
  refine congrArg some ?_
  have hcast : ((10 * (N / 10) + N % 10 : ℕ) : ℚ) = (N : ℚ) := by
    rw [Nat.div_add_mod N 10]
  push_cast at hcast
  rw [pow_succ, pow_zero, one_mul]
  field_simp
  linarith

/-- The rate string printed by `toFixed1` denotes exactly the input rounded
to one decimal place (for nonnegative inputs, the only ones that occur). -/
theorem rateVal_toFixed1 (x : ℚ) (hx : 0 ≤ x) :
    rateVal (toFixed1 x ++ " Mbps") = some (roundTo1 x) := by
  have hn0 : (0 : ℤ) ≤ ⌊x * 10 + 1 / 2⌋ := Int.floor_nonneg.mpr (by positivity)
  set N : Nat := (⌊x * 10 + 1 / 2⌋).toNat with hN
  have hnN : ⌊x * 10 + 1 / 2⌋ = (N : ℤ) := (Int.toNat_of_nonneg hn0).symm
  have hdiv : ⌊x * 10 + 1 / 2⌋ / 10 = ((N / 10 : ℕ) : ℤ) := by rw [hnN]; omega
  have hmod : ⌊x * 10 + 1 / 2⌋ % 10 = ((N % 10 : ℕ) : ℤ) := by rw [hnN]; omega
  have hi1 : intToDecimal (⌊x * 10 + 1 / 2⌋ / 10) = natToDecimal (N / 10) := by
    rw [hdiv, intToDecimal_natCast]
  have hi2 : intToDecimal (⌊x * 10 + 1 / 2⌋ % 10) = natToDecimal (N % 10) := by
    rw [hmod, intToDecimal_natCast]
  have hlist : (toFixed1 x ++ " Mbps").toList =
      (natToDecimal (N / 10) ++ '.' :: natToDecimal (N % 10)) ++ " Mbps".toList := by
    show (toFixed1 x ++ " Mbps").data = _
    rw [toFixed1]
    simp only [hi1, hi2, String.data_append]
    simp [String.toList]
  have hall : ∀ c ∈ natToDecimal (N / 10) ++ '.' :: natToDecimal (N % 10),
      isDotDigit c = true := by
    intro c hc
    rcases List.mem_append.mp hc with hc | hc
    · simp [isDotDigit, natToDecimal_digits _ _ hc]
    · rcases List.mem_cons.mp hc with hc | hc
      · subst hc; rfl
      · simp [isDotDigit, natToDecimal_digits _ _ hc]
  have hMb : (" Mbps".toList) = ' ' :: ['M', 'b', 'p', 's'] := rfl
  rw [rateVal, hlist, hMb, spanB_append _ _ _ hall, spanB_stop _ _ _ (by decide)]
  simp only [List.append_nil]
  rw [jsParseFloat_print]
  rw [roundTo1, hnN]
  norm_num

end RateLemmas

/-- C10: for every nonnegative millisecond count `ms`, `formatDuration ms`
renders `HH:MM:SS` with each component printed zero-padded to two digits,
where the components are the hours, minutes (< 60) and seconds (< 60) of
`Math.floor(ms / 1000)`; `formatDuration 0 = "00:00:00"`, and the
represented total-second count is monotonically non-decreasing in `ms`. -/
theorem c10_formatDuration_correct (ms : Nat) :
    (∃ H M S : Nat,
      formatDuration ms =
        padStart (jsToString H) 2 '0' ++ ":" ++ padStart (jsToString M) 2 '0' ++ ":" ++
          padStart (jsToString S) 2 '0' ∧
      M < 60 ∧ S < 60 ∧ H * 3600 + M * 60 + S = durationSeconds ms) ∧
    formatDuration 0 = "00:00:00" ∧
    (∀ a b : Nat, a ≤ b → durationSeconds a ≤ durationSeconds b) := by
  refine ⟨⟨ms / 1000 / 3600, ms / 1000 % 3600 / 60, ms / 1000 % 60, rfl,
    by omega, by omega, ?_⟩, by decide, fun a b h => Nat.div_le_div_right h⟩
  unfold durationSeconds
  omega

/-- C10 witness: the theorem applied at concrete inputs. -/
theorem c10_formatDuration_correct_witness :
    formatDuration 0 = "00:00:00" ∧ durationSeconds 1000 ≤ durationSeconds 61000 :=
  ⟨(c10_formatDuration_correct 0).2.1,
    (c10_formatDuration_correct 0).2.2 1000 61000 (by norm_num)⟩

/-- C7: for every quality tier, the portrait (mobile) resolution is the
exact transpose of the landscape (desktop) resolution at that tier —
portrait has width < height, landscape width > height — and the bitrate
ceiling of the resolved profile is the same for both orientations. -/
theorem c7_portrait_is_transpose (quality : String) :
    ∃ w h : Nat,
      parseRes (getResolution quality) = some (w, h) ∧
      parseRes (getMobileResolution quality) = some (h, w) ∧
      h < w ∧ 0 < h ∧
      (resolveProfile quality "mobile").1 = (resolveProfile quality "desktop").1 := by
  by_cases h1 : quality = "1080p"
  · subst h1
    exact ⟨1920, 1080, by decide, by decide, by norm_num, by norm_num, rfl⟩
  by_cases h2 : quality = "720p"
  · subst h2
    exact ⟨1280, 720, by decide, by decide, by norm_num, by norm_num, rfl⟩
  by_cases h3 : quality = "480p"
  · subst h3
    exact ⟨854, 480, by decide, by decide, by norm_num, by norm_num, rfl⟩
  refine ⟨1280, 720, ?_, ?_, by norm_num, by norm_num, rfl⟩
  · rw [getResolution, if_neg h1, if_neg h2, if_neg h3]; decide
  · rw [getMobileResolution, if_neg h1, if_neg h2, if_neg h3]; decide

/-- C5: feeding a chunk to the parser increments the dropped-frame counter
by exactly 1 when the chunk contains the substring `drop` or the substring
`error` (exactly 1 even when both occur), and leaves it unchanged
otherwise. -/
theorem c5_dropped_frames_increment (output : String) (st : Single.StreamStatus) :
    (Single.parseFFmpegOutput output st).droppedFrames =
      if includes output "drop" || includes output "error" then st.droppedFrames + 1
      else st.droppedFrames := by
  rw [Single.parseFFmpegOutput]
  cases hsp : speedUpdate output <;>
    cases hd : (includes output "drop" || includes output "error") <;>
      simp [hsp, hd]

/-- C4 counterexample: the chunk `"speed=1.23x"` matches the speed pattern
with multiplier 1.23, but the stored upload-rate estimate denotes 2.5 Mbps
(`(1.23 * 2).toFixed(1) = "2.5"`), not multiplier × 2 = 2.46 Mbps — the
claim's exact-product reading fails because of the one-decimal rounding. -/
theorem c4_counterexample_rounding :
    findSpeedTok ("speed=1.23x").toList = some ['1', '.', '2', '3'] ∧
    jsParseFloat ['1', '.', '2', '3'] = some (123 / 100 : ℚ) ∧
    uploadSpeedVal (Single.parseFFmpegOutput "speed=1.23x" Single.initialStatus) =
      some (5 / 2 : ℚ) ∧
    (5 / 2 : ℚ) ≠ (123 / 100) * 2 := by
  have htok : findSpeedTok ("speed=1.23x").toList = some ['1', '.', '2', '3'] := by decide
  have h1 : spanB isDigitCh ['1', '.', '2', '3'] = (['1'], ['.', '2', '3']) := by decide
  have h2 : spanB isDigitCh ['2', '3'] = (['2', '3'], []) := by decide
  have hq : jsParseFloat ['1', '.', '2', '3'] = some (123 / 100 : ℚ) := by
    unfold jsParseFloat
    rw [h1]
    norm_num
    rw [h2]
    have d1 : digitsVal ['1'] = 1 := by decide
    have d2 : digitsVal ['2', '3'] = 23 := by decide
    rw [d1, d2]
    norm_num
  refine ⟨htok, hq, ?_, by norm_num⟩
  have hsp : speedUpdate "speed=1.23x" = some (toFixed1 (123 / 100 * 2) ++ " Mbps") := by
    simp only [speedUpdate, htok, hq]
  have hdrop : (includes "speed=1.23x" "drop" || includes "speed=1.23x" "error") = false := by
    decide
  simp only [Single.parseFFmpegOutput, hsp, hdrop, Bool.false_eq_true, if_false]
  rw [show uploadSpeedVal
        { Single.initialStatus with uploadSpeed := toFixed1 (123 / 100 * 2) ++ " Mbps" } =
      rateVal (toFixed1 (123 / 100 * 2) ++ " Mbps") from rfl]
  rw [rateVal_toFixed1 _ (by norm_num)]
  rw [show roundTo1 (123 / 100 * 2 : ℚ) = 5 / 2 from by
    rw [roundTo1]
    rw [show ⌊(123 / 100 * 2 : ℚ) * 10 + 1 / 2⌋ = 25 from by
      rw [Int.floor_eq_iff]
      norm_num]
    norm_num]

/-- C4 (amended): for every chunk whose first `speed=<float>x` token parses
to the multiplier `q`, feeding the chunk sets the stored upload-rate
estimate to `q × 2` Mbps rounded to one decimal place (so exactly `q × 2`
whenever `10 · q` is an integer, as in `speed=2.0x ↦ 4.0`). -/
theorem c4_speed_sets_rounded_rate (output : String) (st : Single.StreamStatus)
    (tok : List Char) (q : ℚ)
    (h1 : findSpeedTok output.toList = some tok)
    (h2 : jsParseFloat tok = some q) :
    uploadSpeedVal (Single.parseFFmpegOutput output st) = some (roundTo1 (q * 2)) := by
  have hq0 : 0 ≤ q := jsParseFloat_nonneg h2
  have hsp : speedUpdate output = some (toFixed1 (q * 2) ++ " Mbps") := by
    simp only [speedUpdate, h1, h2]
  have hup : (Single.parseFFmpegOutput output st).uploadSpeed =
      toFixed1 (q * 2) ++ " Mbps" := by
    simp only [Single.parseFFmpegOutput, hsp]
    split <;> rfl
  rw [show uploadSpeedVal (Single.parseFFmpegOutput output st) =
      rateVal (Single.parseFFmpegOutput output st).uploadSpeed from rfl]
  rw [hup, rateVal_toFixed1 _ (mul_nonneg hq0 (by norm_num))]

/-- C4 witness: feeding `"speed=2.0x"` sets the estimated upload rate to
exactly 4.0 Mbps. -/
theorem c4_speed_sets_rounded_rate_witness :
    uploadSpeedVal (Single.parseFFmpegOutput "speed=2.0x" Single.initialStatus) =
      some (4 : ℚ) := by
  have hq : jsParseFloat ['2', '.', '0'] = some (2 : ℚ) := by
    have h1 : spanB isDigitCh ['2', '.', '0'] = (['2'], ['.', '0']) := by decide
    have h2 : spanB isDigitCh ['0'] = (['0'], []) := by decide
    unfold jsParseFloat
    rw [h1]
    norm_num
    rw [h2]
    have d1 : digitsVal ['2'] = 2 := by decide
    have d2 : digitsVal ['0'] = 0 := by decide
    rw [d1, d2]
    norm_num
  have h := c4_speed_sets_rounded_rate "speed=2.0x" Single.initialStatus ['2', '.', '0'] 2
    (by decide) hq
  rw [h]
  rw [show roundTo1 (2 * 2 : ℚ) = 4 from by
    rw [roundTo1]
    rw [show ⌊(2 * 2 : ℚ) * 10 + 1 / 2⌋ = 40 from by
      rw [Int.floor_eq_iff]
      norm_num]
    norm_num]

/-- The single-session service just after `startStream` has initiated:
status `connecting`, ffmpeg spawned (pid 0), confirmation still pending. -/
def sStarted : Single.ServiceState := (Single.startInit true Single.initialState).2

/-- The single-session service once the confirmation callback has fired at
t = 2: status `connected`, `isStreaming` true. -/
def sLive : Single.ServiceState := (Single.confirmTimeout 2 sStarted).2

/-- C1: the claim says `Start` during Connecting or Live fails with
`AlreadyRunning` and leaves at most one process.  Evaluation of the
single-session revision at the failing input: with the first start still in
its Connecting window (`isStreaming` not yet set), a second `startStream`
passes the guard (no error), spawns a second ffmpeg process and overwrites
the handle — afterwards two processes are running and the first is
orphaned.  The multi-session revision guards on process-map membership and
rejects as claimed. -/
theorem c1_second_start_accepted_eval :
    sStarted.streamStatus.connectionStatus = ConnectionStatus.connecting ∧
    sStarted.streamStatus.isStreaming = false ∧
    sStarted.livePids = [0] ∧
    (Single.startInit true sStarted).1 = none ∧
    (Single.startInit true sStarted).2.livePids = [0, 1] ∧
    (Single.startInit true sStarted).2.ffmpegProcess = some ⟨1, false⟩ := by
  decide

/-- C3 counterexample: the chunk `"404"` contains the claimed fatal
substring `404`, but the session is not stopped — the code tests for the
longer case-sensitive phrase `404 Not Found`, so a Live session stays Live
with its process attached. -/
theorem c3_counterexample_404 :
    sLive.streamStatus.isStreaming = true ∧
    sLive.streamStatus.connectionStatus = ConnectionStatus.connected ∧
    includes "404" "404" = true ∧
    isFatalOutput "404" = false ∧
    (Single.stderrData "404" sLive).streamStatus.isStreaming = true ∧
    (Single.stderrData "404" sLive).streamStatus.connectionStatus =
      ConnectionStatus.connected ∧
    (Single.stderrData "404" sLive).ffmpegProcess.isSome = true := by
  decide

/-- C3 (amended): a stderr chunk containing one of the exact case-sensitive
phrases `Connection refused`, `404 Not Found`, `403 Forbidden`,
`HTTP error`, `No such file or directory` drives the session to Stopped
exactly as if Stop had been called after the parse — the handler literally
calls `stopStream`, so the process handle is cleared, streaming ends and
the status is `disconnected`, with no retry. -/
theorem c3_fatal_phrase_stops (output : String) (s : Single.ServiceState)
    (h : isFatalOutput output = true) :
    Single.stderrData output s = Single.stopStream (Single.feedChunk output s) ∧
    (Single.stderrData output s).ffmpegProcess = none ∧
    (Single.stderrData output s).streamStatus.isStreaming = false ∧
    (Single.stderrData output s).streamStatus.connectionStatus =
      ConnectionStatus.disconnected := by
  have h1 : Single.stderrData output s = Single.stopStream (Single.feedChunk output s) := by
    simp [Single.stderrData, h]
  refine ⟨h1, ?_, ?_, ?_⟩ <;>
    rw [h1] <;>
      cases hp : (Single.feedChunk output s).ffmpegProcess <;>
        simp [Single.stopStream, hp, Single.notify, Single.resetStatus]

/-- C3 witness: a chunk containing `403 Forbidden` stops the Live session
without an explicit Stop call. -/
theorem c3_fatal_phrase_stops_witness :
    isFatalOutput "403 Forbidden" = true ∧
    sLive.streamStatus.isStreaming = true ∧
    (Single.stderrData "403 Forbidden" sLive).ffmpegProcess = none ∧
    (Single.stderrData "403 Forbidden" sLive).streamStatus.connectionStatus =
      ConnectionStatus.disconnected :=
  ⟨by decide, by decide,
    (c3_fatal_phrase_stops "403 Forbidden" sLive (by decide)).2.1,
    (c3_fatal_phrase_stops "403 Forbidden" sLive (by decide)).2.2.2⟩

/-- The multi-session service just after `startStream(config, 1)` has
registered the session: status object at address 0 (`connecting`), process
pid 0 mapped and running, confirmation pending. -/
def mStarted : Multi.MState := exOkOr Multi.mInit (Multi.startInit true 1 0 Multi.mInit)

/-- `mStarted` after a stderr chunk containing `error`: the dropped-frame
counter of session 1 is now 1. -/
def mDropped : Multi.MState := Multi.stderrData "error" 1 mStarted

/-- `mDropped` after its ffmpeg process (pid 0) exits on its own: the close
handler unmaps the process and marks the status disconnected, retaining the
metrics. -/
def mSelfExited : Multi.MState := Multi.closeEvent 1 0 mDropped

/-- C9 counterexample: in the multi-session revision `getStatus` returns
the stored status object itself (`statuses.get(streamId) || null`), not a
copy — the reference obtained before a parser mutation observes the
mutation: dropped frames read through it change from 0 to 1 after the
chunk `"error"` is fed. -/
theorem c9_counterexample_live_reference :
    Multi.getStatusRef mStarted 1 = some 0 ∧
    (mStarted.heap.get? 0).map (·.droppedFrames) = some 0 ∧
    ((Multi.parseFFmpegOutput "error" 1 mStarted).heap.get? 0).map (·.droppedFrames) =
      some 1 := by
  decide

/-- C9 (amended): in the single-session revision `getStatus` returns
`{ ...this.streamStatus }`, a freshly allocated copy: it holds the field
values at call time, and no subsequent service operation (parser feed,
stop, duration tick) changes what is read through it. -/
theorem c9_getStatus_returns_copy (s : Single.ObjState) (op : Single.ServiceOp) :
    Single.readObj (Single.getStatusCopy s).2 (Single.getStatusCopy s).1 =
      some s.statusObj ∧
    Single.readObj (Single.applyServiceOp op (Single.getStatusCopy s).2)
      (Single.getStatusCopy s).1 = some s.statusObj := by
  constructor
  · show (s.snapshots ++ [s.statusObj]).get? s.snapshots.length = some s.statusObj
    exact get?_append_length _ _
  · cases op <;>
      · show (s.snapshots ++ [s.statusObj]).get? s.snapshots.length = some s.statusObj
        exact get?_append_length _ _

/-- C2 counterexample: `stopStream` on a session that is already stopped
(its process exited on its own) does not fail with `NotRunning` — it is an
error-free void call — and it has observable side effects: it resets the
session's dropped-frame counter from 1 to 0; and in the single-session
revision a stop on the never-started service still mutates the status
record and notifies every observer. -/
theorem c2_counterexample_side_effect :
    (Multi.readStatus mSelfExited 1).map (·.isStreaming) = some false ∧
    mSelfExited.processes 1 = none ∧
    (Multi.readStatus mSelfExited 1).map (·.droppedFrames) = some 1 ∧
    (Multi.readStatus (Multi.stopStream 1 mSelfExited) 1).map (·.droppedFrames) =
      some 0 ∧
    (Single.stopStream Single.initialState).notifications = [Single.initialStatus] := by
  decide

/-- C2 (amended): `stopStream` on an id with no running process never
produces an error; it leaves the process table, the running processes and
the killed set untouched, resets the stored status fields to their
baseline when a status record exists (a visible side effect), and deletes
the start time. -/
theorem c2_stop_not_running (s : Multi.MState) (id : Nat)
    (h : s.processes id = none) :
    (Multi.stopStream id s).processes = s.processes ∧
    (Multi.stopStream id s).livePids = s.livePids ∧
    (Multi.stopStream id s).killedPids = s.killedPids ∧
    Multi.readStatus (Multi.stopStream id s) id =
      (Multi.readStatus s id).map (fun _ => Multi.stoppedStatus) ∧
    (Multi.stopStream id s).startTimes id = none := by
  rw [Multi.stopStream, h]
  cases hst : s.statuses id with
  | none =>
    simp only [hst]
    refine ⟨by trivial, by trivial, by trivial, ?_, by simp [Multi.mapDel]⟩
    simp [Multi.readStatus, hst]
  | some a =>
    simp only [hst]
    refine ⟨by trivial, by trivial, by trivial, ?_, by simp [Multi.mapDel]⟩
    simp only [Multi.readStatus, hst, Option.some_bind]
    rw [Multi.heapModify]
    cases hg : s.heap.get? a with
    | none =>
      change s.heap.get? a = _
      simpa using hg
    | some st =>
      change (s.heap.set a Multi.stoppedStatus).get? a = _
      rw [get?_set_self, hg]

/-- C2 witness: the amended theorem applied to the already-stopped session
of the counterexample trace. -/
theorem c2_stop_not_running_witness :
    mSelfExited.processes 1 = none ∧
    (Multi.stopStream 1 mSelfExited).livePids = mSelfExited.livePids ∧
    Multi.readStatus (Multi.stopStream 1 mSelfExited) 1 =
      (Multi.readStatus mSelfExited 1).map (fun _ => Multi.stoppedStatus) :=
  ⟨by decide, (c2_stop_not_running mSelfExited 1 (by decide)).2.1,
    (c2_stop_not_running mSelfExited 1 (by decide)).2.2.2.1⟩

/-- `mStarted` after its process (pid 0) exits on its own before the
confirmation timeout: close handler has run. -/
def mExitedEarly : Multi.MState := Multi.closeEvent 1 0 mStarted

/-- `mExitedEarly` after the pending confirmation callback fires (the
closure captured pid 0 and status address 0). -/
def mConfirmedLate : Multi.MState := exOkOr mExitedEarly (Multi.confirmTimeout 0 0 mExitedEarly)

/-- C6: the claim's status/handle consistency invariant is violated by the
multi-session revision.  Evaluation at the failing input: the spawned
process exits on its own before the 2-second confirmation (close handler
unmaps it and sets `disconnected`), then the confirmation callback — which
only re-checks the stale local `process.killed`, false because `kill` was
never called — marks the session `connected`/`isStreaming` although no
process handle exists for it.  The single-session revision re-checks the
handle field instead and avoids this. -/
theorem c6_confirm_after_exit_violates_invariant :
    exIsOk (Multi.startInit true 1 0 Multi.mInit) = true ∧
    mStarted.processes 1 = some 0 ∧
    (Multi.readStatus mExitedEarly 1).map (·.connectionStatus) =
      some ConnectionStatus.disconnected ∧
    mExitedEarly.processes 1 = none ∧
    mExitedEarly.killedPids = [] ∧
    exIsOk (Multi.confirmTimeout 0 0 mExitedEarly) = true ∧
    (Multi.readStatus mConfirmedLate 1).map (·.isStreaming) = some true ∧
    (Multi.readStatus mConfirmedLate 1).map (·.connectionStatus) =
      some ConnectionStatus.connected ∧
    mConfirmedLate.processes 1 = none ∧
    mConfirmedLate.livePids = [] := by
  decide

/-- C8: for every stream configuration the transcoder command line starts
with the native-rate flag `-re`; it contains the adjacent pair
`-stream_loop -1` exactly when the loop flag is set; the `-maxrate`,
`-bufsize` and `-vf` values come from the profile resolvers applied to the
configured quality and stream mode (defaulting to desktop); and the final
argument is `rtmp://a.rtmp.youtube.com/live2/<streamKey>`. -/
theorem c8_command_line (cfg : StreamConfig) :
    (ffmpegArgs cfg).head? = some "-re" ∧
    (["-stream_loop", "-1"] <:+: ffmpegArgs cfg ↔ cfg.loop = true) ∧
    ["-maxrate", getMaxRate cfg.quality] <:+: ffmpegArgs cfg ∧
    ["-bufsize", getBufSize cfg.quality] <:+: ffmpegArgs cfg ∧
    ["-vf", getVideoFilter cfg.quality (cfg.streamMode.getD "desktop")] <:+: ffmpegArgs cfg ∧
    (ffmpegArgs cfg).getLast? = some (rtmpUrl cfg.streamKey) ∧
    rtmpUrl cfg.streamKey = "rtmp://a.rtmp.youtube.com/live2/" ++ cfg.streamKey := by
  cases hl : cfg.loop with
  | true =>
    have hL : ffmpegArgs cfg =
        ["-re", "-stream_loop", "-1", "-i", cfg.inputFile, "-c:v", "libx264",
         "-preset", "fast", "-maxrate", getMaxRate cfg.quality,
         "-bufsize", getBufSize cfg.quality,
         "-vf", getVideoFilter cfg.quality (cfg.streamMode.getD "desktop"),
         "-c:a", "aac", "-b:a", "128k", "-ar", "44100", "-f", "flv",
         "-flvflags", "no_duration_filesize", rtmpUrl cfg.streamKey] := by
      simp [ffmpegArgs, hl]
    refine ⟨by rw [hL]; rfl, ⟨fun _ => rfl, fun _ => ?_⟩, ?_, ?_, ?_, by rw [hL]; rfl, rfl⟩
    · exact ⟨["-re"],
        ["-i", cfg.inputFile, "-c:v", "libx264", "-preset", "fast",
         "-maxrate", getMaxRate cfg.quality, "-bufsize", getBufSize cfg.quality,
         "-vf", getVideoFilter cfg.quality (cfg.streamMode.getD "desktop"),
         "-c:a", "aac", "-b:a", "128k", "-ar", "44100", "-f", "flv",
         "-flvflags", "no_duration_filesize", rtmpUrl cfg.streamKey], by rw [hL]; rfl⟩
    · exact ⟨["-re", "-stream_loop", "-1", "-i", cfg.inputFile, "-c:v", "libx264",
         "-preset", "fast"],
        ["-bufsize", getBufSize cfg.quality,
         "-vf", getVideoFilter cfg.quality (cfg.streamMode.getD "desktop"),
         "-c:a", "aac", "-b:a", "128k", "-ar", "44100", "-f", "flv",
         "-flvflags", "no_duration_filesize", rtmpUrl cfg.streamKey], by rw [hL]; rfl⟩
    · exact ⟨["-re", "-stream_loop", "-1", "-i", cfg.inputFile, "-c:v", "libx264",
         "-preset", "fast", "-maxrate", getMaxRate cfg.quality],
        ["-vf", getVideoFilter cfg.quality (cfg.streamMode.getD "desktop"),
         "-c:a", "aac", "-b:a", "128k", "-ar", "44100", "-f", "flv",
         "-flvflags", "no_duration_filesize", rtmpUrl cfg.streamKey], by rw [hL]; rfl⟩
    · exact ⟨["-re", "-stream_loop", "-1", "-i", cfg.inputFile, "-c:v", "libx264",
         "-preset", "fast", "-maxrate", getMaxRate cfg.quality,
         "-bufsize", getBufSize cfg.quality],
        ["-c:a", "aac", "-b:a", "128k", "-ar", "44100", "-f", "flv",
         "-flvflags", "no_duration_filesize", rtmpUrl cfg.streamKey], by rw [hL]; rfl⟩
  | false =>
    have hL : ffmpegArgs cfg =
        ["-re", "-i", cfg.inputFile, "-c:v", "libx264",
         "-preset", "fast", "-maxrate", getMaxRate cfg.quality,
         "-bufsize", getBufSize cfg.quality,
         "-vf", getVideoFilter cfg.quality (cfg.streamMode.getD "desktop"),
         "-c:a", "aac", "-b:a", "128k", "-ar", "44100", "-f", "flv",
         "-flvflags", "no_duration_filesize", rtmpUrl cfg.streamKey] := by
      simp [ffmpegArgs, hl]
    refine ⟨by rw [hL]; rfl, ⟨fun hin => ?_, fun hcon => by simp at hcon⟩,
      ?_, ?_, ?_, by rw [hL]; rfl, rfl⟩
    · exfalso
      rw [hL] at hin
      obtain ⟨i, h1, h2⟩ := infix_pair_index hin
      obtain ⟨hlt, -⟩ := List.get?_eq_some.mp h1
      have hb : i < 24 := by simpa using hlt
      interval_cases i <;> simp_all
    · exact ⟨["-re", "-i", cfg.inputFile, "-c:v", "libx264", "-preset", "fast"],
        ["-bufsize", getBufSize cfg.quality,
         "-vf", getVideoFilter cfg.quality (cfg.streamMode.getD "desktop"),
         "-c:a", "aac", "-b:a", "128k", "-ar", "44100", "-f", "flv",
         "-flvflags", "no_duration_filesize", rtmpUrl cfg.streamKey], by rw [hL]; rfl⟩
    · exact ⟨["-re", "-i", cfg.inputFile, "-c:v", "libx264", "-preset", "fast",
         "-maxrate", getMaxRate cfg.quality],
        ["-vf", getVideoFilter cfg.quality (cfg.streamMode.getD "desktop"),
         "-c:a", "aac", "-b:a", "128k", "-ar", "44100", "-f", "flv",
         "-flvflags", "no_duration_filesize", rtmpUrl cfg.streamKey], by rw [hL]; rfl⟩
    · exact ⟨["-re", "-i", cfg.inputFile, "-c:v", "libx264", "-preset", "fast",
         "-maxrate", getMaxRate cfg.quality, "-bufsize", getBufSize cfg.quality],
        ["-c:a", "aac", "-b:a", "128k", "-ar", "44100", "-f", "flv",
         "-flvflags", "no_duration_filesize", rtmpUrl cfg.streamKey], by rw [hL]; rfl⟩
